import Mathlib

/-!
Verification of the minimal-elf generator (`src/lib.rs`, `src/main.rs`).

The program builds a minimal ELF64 executable: a 64-byte file header, a
56-byte program header and a machine-code payload, concatenated into one
buffer. We embed the byte-level construction shallowly: buffers are
`List Nat` of byte values, integer field writes are little-endian byte
sequences (`leBytes`), and each `binary_layout` view is the slice of the
buffer that the Rust view exposes, written at the layout's field offsets.
-/

namespace MinimalElf

/-- Little-endian encoding of `v` into `w` bytes, as the `binary_layout`
crate writes an unsigned integer field (truncating to the field width,
which matches Rust's `as u64`/`as u16` casts composed with the write). -/
def leBytes : Nat → Nat → List Nat
  | 0, _ => []
  | w + 1, v => v % 256 :: leBytes w (v / 256)

/-- Little-endian decoding of a byte list (inverse of `leBytes` on
in-range values). -/
def readLE : List Nat → Nat
  | [] => 0
  | b :: bs => b + 256 * readLE bs

/-- Overwrite `buf[off .. off + data.length)` with `data`: the semantics
of a `binary_layout` field write / `copy_from_slice` at an in-bounds
offset. -/
def writeAt (buf : List Nat) (off : Nat) (data : List Nat) : List Nat :=
  buf.take off ++ data ++ buf.drop (off + data.length)

/-- Read `w` bytes at offset `off` as a little-endian integer: the
semantics of a `binary_layout` field read. -/
def readAt (buf : List Nat) (off w : Nat) : Nat :=
  readLE ((buf.drop off).take w)

/-! ## Layout `elf64_ident` (lib.rs lines 28-36)

Fields in order: mag `[u8;4]`, class `u8`, data `u8`, version `u8`,
os_abi `u8`, abi_version `u8`, pad `[u8;7]`. -/

namespace elf64_ident

def mag_offset : Nat := 0
def class_offset : Nat := mag_offset + 4
def data_offset : Nat := class_offset + 1
def version_offset : Nat := data_offset + 1
def os_abi_offset : Nat := version_offset + 1
def abi_version_offset : Nat := os_abi_offset + 1
def pad_offset : Nat := abi_version_offset + 1

/-- `elf64_ident::SIZE`: total size of the fixed-size layout. -/
def SIZE : Option Nat := some (pad_offset + 7)

end elf64_ident

/-- `set_ident` (lib.rs lines 50-59): fill an `elf64_ident` view. -/
def set_ident (view : List Nat) : List Nat :=
  let view := writeAt view elf64_ident.mag_offset [0x7f, 0x45, 0x4c, 0x46]
  let view := writeAt view elf64_ident.class_offset (leBytes 1 2)
  let view := writeAt view elf64_ident.data_offset (leBytes 1 1)
  let view := writeAt view elf64_ident.version_offset (leBytes 1 1)
  let view := writeAt view elf64_ident.os_abi_offset (leBytes 1 0)
  let view := writeAt view elf64_ident.abi_version_offset (leBytes 1 0)
  writeAt view elf64_ident.pad_offset (List.replicate 7 0)

/-! ## Layout `elf64_hdr` (lib.rs lines 61-76)

ident (nested, 16 bytes), _type `u16`, machine `u16`, version `u32`,
entry `u64`, phoff `u64`, shoff `u64`, flags `u32`, ehsize `u16`,
phentsize `u16`, phnum `u16`, shentsize `u16`, shnum `u16`,
shstrndx `u16`. -/

namespace elf64_hdr

def ident_offset : Nat := 0
def type_offset : Nat := ident_offset + 16
def machine_offset : Nat := type_offset + 2
def version_offset : Nat := machine_offset + 2
def entry_offset : Nat := version_offset + 4
def phoff_offset : Nat := entry_offset + 8
def shoff_offset : Nat := phoff_offset + 8
def flags_offset : Nat := shoff_offset + 8
def ehsize_offset : Nat := flags_offset + 4
def phentsize_offset : Nat := ehsize_offset + 2
def phnum_offset : Nat := phentsize_offset + 2
def shentsize_offset : Nat := phnum_offset + 2
def shnum_offset : Nat := shentsize_offset + 2
def shstrndx_offset : Nat := shnum_offset + 2

/-- `elf64_hdr::SIZE`. -/
def SIZE : Option Nat := some (shstrndx_offset + 2)

end elf64_hdr

/-! ## Layout `elf64_phdr` (lib.rs lines 106-115)

_type `u32`, flags `u32`, offset `u64`, vaddr `u64`, paddr `u64`,
filesz `u64`, memsz `u64`, align `u64`. -/

namespace elf64_phdr

def type_offset : Nat := 0
def flags_offset : Nat := type_offset + 4
def offset_offset : Nat := flags_offset + 4
def vaddr_offset : Nat := offset_offset + 8
def paddr_offset : Nat := vaddr_offset + 8
def filesz_offset : Nat := paddr_offset + 8
def memsz_offset : Nat := filesz_offset + 8
def align_offset : Nat := memsz_offset + 8

/-- `elf64_phdr::SIZE`. -/
def SIZE : Option Nat := some (align_offset + 8)

end elf64_phdr

/-- `PROGRAM_OFFSET` (lib.rs lines 78-89): sum of the two header sizes,
after the const-context unwraps of the two `SIZE` options. -/
def PROGRAM_OFFSET : Nat := (elf64_hdr.SIZE.getD 0) + (elf64_phdr.SIZE.getD 0)

/-- `pub const VADDR` (lib.rs line 91). -/
def VADDR : Nat := 0x400000

/-- `set_elf64_hdr` (lib.rs lines 93-104): fill an `elf64_hdr` view.
The section-header fields (shoff, shentsize, shnum, shstrndx) are not
written; they keep the view's prior contents. -/
def set_elf64_hdr (view : List Nat) : List Nat :=
  let view :=
    set_ident ((view.take 16)) ++ view.drop 16
  let view := writeAt view elf64_hdr.type_offset (leBytes 2 2)
  let view := writeAt view elf64_hdr.machine_offset (leBytes 2 62)
  let view := writeAt view elf64_hdr.version_offset (leBytes 4 1)
  let view := writeAt view elf64_hdr.entry_offset (leBytes 8 (VADDR + PROGRAM_OFFSET))
  let view := writeAt view elf64_hdr.phoff_offset (leBytes 8 (elf64_hdr.SIZE.getD 0))
  let view := writeAt view elf64_hdr.flags_offset (leBytes 4 0)
  let view := writeAt view elf64_hdr.ehsize_offset (leBytes 2 (elf64_hdr.SIZE.getD 0))
  let view := writeAt view elf64_hdr.phentsize_offset (leBytes 2 (elf64_phdr.SIZE.getD 0))
  writeAt view elf64_hdr.phnum_offset (leBytes 2 1)

/-- `set_elf64_phdr` (lib.rs lines 117-133): fill an `elf64_phdr` view
given the payload length. The paddr field is not written; it keeps the
view's prior contents. -/
def set_elf64_phdr (view : List Nat) (program_size : Nat) : List Nat :=
  let view := writeAt view elf64_phdr.type_offset (leBytes 4 1)
  let view := writeAt view elf64_phdr.flags_offset (leBytes 4 (0x1 ||| 0x2 ||| 0x4))
  let offset := (elf64_hdr.SIZE.getD 0) + (elf64_phdr.SIZE.getD 0)
  let view := writeAt view elf64_phdr.offset_offset (leBytes 8 offset)
  let view := writeAt view elf64_phdr.vaddr_offset (leBytes 8 (VADDR + PROGRAM_OFFSET))
  let view := writeAt view elf64_phdr.filesz_offset (leBytes 8 program_size)
  let view := writeAt view elf64_phdr.memsz_offset (leBytes 8 program_size)
  writeAt view elf64_phdr.align_offset (leBytes 8 4096)

/-- `create_elf` (lib.rs lines 141-150): allocate a zeroed buffer of size
`hdr + phdr + payload`, fill the `elf64_file` nested views `hdr`
(bytes 0..64), `phdr` (bytes 64..120) and `program` (the tail), return
the buffer. Each nested view is modelled as the corresponding slice of
the buffer; the mutated slices are reassembled by concatenation. -/
def create_elf (program : List Nat) : List Nat :=
  let hdr_sz := elf64_hdr.SIZE.getD 0
  let phdr_sz := elf64_phdr.SIZE.getD 0
  let buf := List.replicate (hdr_sz + phdr_sz + program.length) 0
  set_elf64_hdr (buf.take hdr_sz)
    ++ set_elf64_phdr ((buf.drop hdr_sz).take phdr_sz) program.length
    ++ program

/-! ## Decoding: the field accessors of the layouts

`binary_layout` generates, for each field, a read accessor that decodes
the little-endian bytes at the field's offset. The `elf64_file` layout
(lib.rs lines 135-139) places the `hdr` view at offset 0, the `phdr`
view at offset 64 and the open-ended `program` field at offset 120. -/

namespace elf64_ident

def mag_get (v : List Nat) : List Nat := (v.drop mag_offset).take 4
def class_get (v : List Nat) : Nat := readAt v class_offset 1
def data_get (v : List Nat) : Nat := readAt v data_offset 1
def version_get (v : List Nat) : Nat := readAt v version_offset 1
def os_abi_get (v : List Nat) : Nat := readAt v os_abi_offset 1
def abi_version_get (v : List Nat) : Nat := readAt v abi_version_offset 1
def pad_get (v : List Nat) : List Nat := (v.drop pad_offset).take 7

end elf64_ident

namespace elf64_hdr

def ident_get (v : List Nat) : List Nat := (v.drop ident_offset).take 16
def type_get (v : List Nat) : Nat := readAt v type_offset 2
def machine_get (v : List Nat) : Nat := readAt v machine_offset 2
def version_get (v : List Nat) : Nat := readAt v version_offset 4
def entry_get (v : List Nat) : Nat := readAt v entry_offset 8
def phoff_get (v : List Nat) : Nat := readAt v phoff_offset 8
def shoff_get (v : List Nat) : Nat := readAt v shoff_offset 8
def flags_get (v : List Nat) : Nat := readAt v flags_offset 4
def ehsize_get (v : List Nat) : Nat := readAt v ehsize_offset 2
def phentsize_get (v : List Nat) : Nat := readAt v phentsize_offset 2
def phnum_get (v : List Nat) : Nat := readAt v phnum_offset 2
def shentsize_get (v : List Nat) : Nat := readAt v shentsize_offset 2
def shnum_get (v : List Nat) : Nat := readAt v shnum_offset 2
def shstrndx_get (v : List Nat) : Nat := readAt v shstrndx_offset 2

end elf64_hdr

namespace elf64_phdr

def type_get (v : List Nat) : Nat := readAt v type_offset 4
def flags_get (v : List Nat) : Nat := readAt v flags_offset 4
def offset_get (v : List Nat) : Nat := readAt v offset_offset 8
def vaddr_get (v : List Nat) : Nat := readAt v vaddr_offset 8
def paddr_get (v : List Nat) : Nat := readAt v paddr_offset 8
def filesz_get (v : List Nat) : Nat := readAt v filesz_offset 8
def memsz_get (v : List Nat) : Nat := readAt v memsz_offset 8
def align_get (v : List Nat) : Nat := readAt v align_offset 8

end elf64_phdr

namespace elf64_file

/-- The `hdr` nested view: bytes 0..64 of the file. -/
def hdr (buf : List Nat) : List Nat := buf.take 64

/-- The `phdr` nested view: bytes 64..120 of the file. -/
def phdr (buf : List Nat) : List Nat := (buf.drop 64).take 56

/-- The open-ended `program` field: bytes 120.. of the file. -/
def program (buf : List Nat) : List Nat := buf.drop 120

end elf64_file

/-! ## The payload program (`create_program`, lib.rs lines 152-167)

`create_program` assembles, through the external `iced_x86` crate, the
instruction sequence `push 60; pop rax; xor edi, edi; syscall` at base
address `VADDR` and returns the machine-code bytes. -/

/-- `create_program`. Modelled from the spec: the byte encoding is
produced by the external `iced_x86` assembler, which is not part of this
repository; the bytes below are the x86-64 encoding of the instruction
sequence written in the source — `push 60` (`6A 3C`), `pop rax` (`58`),
`xor edi, edi` (`31 FF`), `syscall` (`0F 05`). The repository's own test
(lib.rs lines 173-177) pins the assembled length to 7 bytes, matching
this encoding. -/
def create_program : List Nat := [0x6a, 0x3c, 0x58, 0x31, 0xff, 0x0f, 0x05]

/-- The x86-64 machine state needed by the payload: instruction pointer
(as an offset into the payload), the registers it touches, and memory
(for the stack), addresses and 64-bit registers reduced mod `2 ^ 64`. -/
structure MState where
  rip : Nat
  rax : Nat
  rdi : Nat
  rsp : Nat
  mem : Nat → Nat

/-- Result of decoding and executing one instruction. -/
inductive StepResult where
  | next (s : MState)
  | syscallStep (num arg : Nat) (s : MState)
  | stuck

/-- Modelled from the spec: the x86-64 semantics of the four
instructions the payload uses, with the Linux syscall convention the
spec names (syscall number in `rax`, first argument in `rdi`).
`push imm8` sign-extends the immediate and stores it at the decremented
stack pointer; `pop rax` loads from the stack pointer; writing the
32-bit register `edi` zero-extends into `rdi`; `syscall` reports its
number and first argument. -/
def decodeStep (code : List Nat) (s : MState) : StepResult :=
  match code.drop s.rip with
  | 0x6a :: imm :: _ =>
      let v := if imm < 128 then imm else 2 ^ 64 - (256 - imm)
      let rsp := (s.rsp + (2 ^ 64 - 8)) % 2 ^ 64
      .next { s with rip := s.rip + 2, rsp := rsp,
                     mem := fun a => if a = rsp then v else s.mem a }
  | 0x58 :: _ =>
      .next { s with rip := s.rip + 1, rax := s.mem s.rsp % 2 ^ 64,
                     rsp := (s.rsp + 8) % 2 ^ 64 }
  | 0x31 :: 0xff :: _ =>
      .next { s with rip := s.rip + 2, rdi := 0 }
  | 0x0f :: 0x05 :: _ =>
      .syscallStep s.rax s.rdi { s with rip := s.rip + 2 }
  | _ => .stuck

/-- How a run of the payload ends. -/
inductive Outcome where
  | exited (status : Nat)
  | stuck
  | timeout
deriving DecidableEq

/-- Fuel-bounded execution from a state, collecting the trace of
syscalls `(number, first argument)`. Modelled from the spec: a syscall
with number 60 is `exit`, which terminates the process and does not
return, so the run stops there. -/
def run (code : List Nat) : Nat → MState → List (Nat × Nat) × Outcome
  | 0, _ => ([], Outcome.timeout)
  | fuel + 1, s =>
      match decodeStep code s with
      | StepResult.next s' => run code fuel s'
      | StepResult.syscallStep num arg s' =>
          if num = 60 then ([(num, arg)], Outcome.exited arg)
          else
            let r := run code fuel s'
            ((num, arg) :: r.1, r.2)
      | StepResult.stuck => ([], Outcome.stuck)

/-! ## Fallible assembly (`create_elf` with its panic branches explicit)

The Rust code unwraps the layout `SIZE` options and calls
`copy_from_slice`, which panics when source and destination lengths
differ; a `binary_layout` field write likewise requires the view to be
large enough. `create_elf_checked` makes every such branch an `Option`
failure so totality can be stated. -/

/-- A field write with the in-bounds check made explicit. -/
def writeAtChecked (buf : List Nat) (off : Nat) (data : List Nat) :
    Option (List Nat) :=
  if off + data.length ≤ buf.length then some (writeAt buf off data) else none

/-- `set_ident` with the `copy_from_slice` length checks explicit. -/
def set_ident_checked (view : List Nat) : Option (List Nat) := do
  let view ← writeAtChecked view elf64_ident.mag_offset [0x7f, 0x45, 0x4c, 0x46]
  let view ← writeAtChecked view elf64_ident.class_offset (leBytes 1 2)
  let view ← writeAtChecked view elf64_ident.data_offset (leBytes 1 1)
  let view ← writeAtChecked view elf64_ident.version_offset (leBytes 1 1)
  let view ← writeAtChecked view elf64_ident.os_abi_offset (leBytes 1 0)
  let view ← writeAtChecked view elf64_ident.abi_version_offset (leBytes 1 0)
  writeAtChecked view elf64_ident.pad_offset (List.replicate 7 0)

/-- `set_elf64_hdr` with its `SIZE.unwrap()` calls and write bounds
checks explicit. -/
def set_elf64_hdr_checked (view : List Nat) : Option (List Nat) := do
  let identv ← set_ident_checked (view.take 16)
  let view := identv ++ view.drop 16
  let view ← writeAtChecked view elf64_hdr.type_offset (leBytes 2 2)
  let view ← writeAtChecked view elf64_hdr.machine_offset (leBytes 2 62)
  let view ← writeAtChecked view elf64_hdr.version_offset (leBytes 4 1)
  let view ← writeAtChecked view elf64_hdr.entry_offset (leBytes 8 (VADDR + PROGRAM_OFFSET))
  let hdr_sz ← elf64_hdr.SIZE
  let view ← writeAtChecked view elf64_hdr.phoff_offset (leBytes 8 hdr_sz)
  let view ← writeAtChecked view elf64_hdr.flags_offset (leBytes 4 0)
  let hdr_sz2 ← elf64_hdr.SIZE
  let view ← writeAtChecked view elf64_hdr.ehsize_offset (leBytes 2 hdr_sz2)
  let phdr_sz ← elf64_phdr.SIZE
  let view ← writeAtChecked view elf64_hdr.phentsize_offset (leBytes 2 phdr_sz)
  writeAtChecked view elf64_hdr.phnum_offset (leBytes 2 1)

/-- `set_elf64_phdr` with its `SIZE.unwrap()` calls and write bounds
checks explicit. -/
def set_elf64_phdr_checked (view : List Nat) (program_size : Nat) :
    Option (List Nat) := do
  let view ← writeAtChecked view elf64_phdr.type_offset (leBytes 4 1)
  let view ← writeAtChecked view elf64_phdr.flags_offset (leBytes 4 (0x1 ||| 0x2 ||| 0x4))
  let hdr_sz ← elf64_hdr.SIZE
  let phdr_sz ← elf64_phdr.SIZE
  let view ← writeAtChecked view elf64_phdr.offset_offset (leBytes 8 (hdr_sz + phdr_sz))
  let view ← writeAtChecked view elf64_phdr.vaddr_offset (leBytes 8 (VADDR + PROGRAM_OFFSET))
  let view ← writeAtChecked view elf64_phdr.filesz_offset (leBytes 8 program_size)
  let view ← writeAtChecked view elf64_phdr.memsz_offset (leBytes 8 program_size)
  writeAtChecked view elf64_phdr.align_offset (leBytes 8 4096)

/-- `create_elf` with every panic branch explicit: the two
`SIZE.unwrap()` calls, the checked header writes, and the final
`copy_from_slice` of the payload into the tail (which panics unless the
tail length equals the payload length). -/
def create_elf_checked (program : List Nat) : Option (List Nat) := do
  let hdr_sz ← elf64_hdr.SIZE
  let phdr_sz ← elf64_phdr.SIZE
  let buf := List.replicate (hdr_sz + phdr_sz + program.length) 0
  let hdrv ← set_elf64_hdr_checked (buf.take hdr_sz)
  let phdrv ← set_elf64_phdr_checked ((buf.drop hdr_sz).take phdr_sz) program.length
  let tail := buf.drop (hdr_sz + phdr_sz)
  if tail.length = program.length then some (hdrv ++ phdrv ++ program)
  else none

/-! ## The file-writing collaborator (`write_elf`, lib.rs lines 180-187) -/

/-- A file on disk: its byte contents and its permission mode. -/
structure FileState where
  content : List Nat
  mode : Nat
deriving DecidableEq

/-- Modelled from the spec: POSIX semantics of
`OpenOptions::new().write(true).create(true).mode(0o755)` — no truncate
flag is set, so an existing file keeps its contents (and its mode); a
missing file is created empty with mode `0o755`. -/
def openWriteCreate (existing : Option FileState) : FileState :=
  match existing with
  | none => { content := [], mode := 0o755 }
  | some f => f

/-- Modelled from the spec: `write_all(&buf)` on a freshly opened file
writes `buf` starting at offset 0, leaving any bytes of the existing
content beyond `buf.length` unchanged. -/
def write_all (f : FileState) (buf : List Nat) : FileState :=
  { f with content := buf ++ f.content.drop buf.length }

/-- `write_elf` (lib.rs lines 180-187): assemble
`create_elf(&create_program())` and write it to the file at the target
path, whose prior state is `existing`. -/
def write_elf (existing : Option FileState) : FileState :=
  write_all (openWriteCreate existing) (create_elf create_program)

/-! ## Normal form of `create_elf` -/

/-- The 64 file-header bytes: `set_elf64_hdr` applied to a zeroed view. -/
def hdr_bytes : List Nat := set_elf64_hdr (List.replicate 64 0)

/-- The 56 program-header bytes for payload length `L`:
`set_elf64_phdr` applied to a zeroed view. -/
def phdr_bytes (L : Nat) : List Nat := set_elf64_phdr (List.replicate 56 0) L

lemma create_elf_eq (p : List Nat) :
    create_elf p = hdr_bytes ++ phdr_bytes p.length ++ p := by
  have h64 : min 64 (64 + 56 + p.length) = 64 := by omega
  have h56 : min 56 (64 + 56 + p.length - 64) = 56 := by omega
  simp only [create_elf, hdr_bytes, phdr_bytes, elf64_hdr.SIZE, elf64_phdr.SIZE]
  rw [show (elf64_hdr.shstrndx_offset + 2 : Nat) = 64 from rfl,
      show (elf64_phdr.align_offset + 8 : Nat) = 56 from rfl]
  simp only [Option.getD_some]
  rw [List.take_replicate, List.drop_replicate, List.take_replicate, h64, h56]

lemma leBytes_readLE (w v : Nat) : readLE (leBytes w v) = v % 2 ^ (8 * w) := by
  induction w generalizing v with
  | zero => simp [leBytes, readLE, Nat.mod_one]
  | succ w ih =>
      rw [leBytes, readLE, ih]
      rw [show (8 * (w + 1) : Nat) = 8 * w + 8 by ring, pow_add]
      rw [show ((2 : Nat) ^ 8 = 256) from rfl, Nat.mul_comm (2 ^ (8 * w)) 256]
      exact (Nat.mod_mul).symm

lemma leBytes_length (w v : Nat) : (leBytes w v).length = w := by
  induction w generalizing v with
  | zero => rfl
  | succ w ih => simp [leBytes, ih]

lemma hdr_bytes_eq : hdr_bytes =
    [0x7f, 0x45, 0x4c, 0x46, 2, 1, 1, 0, 0, 0, 0, 0, 0, 0, 0, 0,
     2, 0, 62, 0, 1, 0, 0, 0,
     120, 0, 64, 0, 0, 0, 0, 0,
     64, 0, 0, 0, 0, 0, 0, 0,
     0, 0, 0, 0, 0, 0, 0, 0,
     0, 0, 0, 0, 64, 0, 56, 0, 1, 0, 0, 0, 0, 0, 0, 0] := by decide

lemma phdr_bytes_eq (L : Nat) : phdr_bytes L =
    [1, 0, 0, 0, 7, 0, 0, 0,
     120, 0, 0, 0, 0, 0, 0, 0,
     120, 0, 64, 0, 0, 0, 0, 0,
     0, 0, 0, 0, 0, 0, 0, 0]
    ++ leBytes 8 L ++ leBytes 8 L ++ [0, 16, 0, 0, 0, 0, 0, 0] := by rfl

lemma hdr_bytes_length : hdr_bytes.length = 64 := by rw [hdr_bytes_eq]; rfl

lemma phdr_bytes_length (L : Nat) : (phdr_bytes L).length = 56 := by
  rw [phdr_bytes_eq]
  simp [leBytes_length]

lemma create_elf_hdr_view (p : List Nat) :
    elf64_file.hdr (create_elf p) = hdr_bytes := by
  rw [create_elf_eq, elf64_file.hdr, List.append_assoc,
      List.take_left' hdr_bytes_length]

lemma create_elf_phdr_view (p : List Nat) :
    elf64_file.phdr (create_elf p) = phdr_bytes p.length := by
  rw [create_elf_eq, elf64_file.phdr, List.append_assoc,
      List.drop_left' hdr_bytes_length,
      List.take_left' (phdr_bytes_length p.length)]

lemma create_elf_program_view (p : List Nat) :
    elf64_file.program (create_elf p) = p := by
  rw [create_elf_eq, elf64_file.program]
  have h : (hdr_bytes ++ phdr_bytes p.length).length = 120 := by
    simp [hdr_bytes_length, phdr_bytes_length]
  rw [List.drop_left' h]

lemma create_elf_length (p : List Nat) :
    (create_elf p).length = 120 + p.length := by
  rw [create_elf_eq]
  simp [hdr_bytes_length, phdr_bytes_length]
  omega

lemma create_elf_take120 (p : List Nat) :
    (create_elf p).take 120 = hdr_bytes ++ phdr_bytes p.length := by
  rw [create_elf_eq]
  have h : (hdr_bytes ++ phdr_bytes p.length).length = 120 := by
    simp [hdr_bytes_length, phdr_bytes_length]
  rw [List.take_left' h]

lemma hdr_SIZE_eq : elf64_hdr.SIZE = some 64 := rfl

lemma phdr_SIZE_eq : elf64_phdr.SIZE = some 56 := rfl

lemma readAt_append_left (X Y : List Nat) (off w : Nat) (h : off + w ≤ X.length) :
    readAt (X ++ Y) off w = readAt X off w := by
  unfold readAt
  rw [List.drop_append_eq_append_drop, show off - X.length = 0 by omega,
      List.drop_zero, List.take_append_eq_append_take]
  have hlen : w - (X.drop off).length = 0 := by
    rw [List.length_drop]
    omega
  rw [hlen, List.take_zero, List.append_nil]

lemma readAt_append_right (X Y : List Nat) (off w : Nat) (h : X.length ≤ off) :
    readAt (X ++ Y) off w = readAt Y (off - X.length) w := by
  unfold readAt
  rw [List.drop_append_eq_append_drop, List.drop_eq_nil_of_le h, List.nil_append]

lemma readAt_leBytes8 (L : Nat) (R : List Nat) (h : L < 2 ^ 64) :
    readAt (leBytes 8 L ++ R) 0 8 = L := by
  rw [readAt_append_left]
  · unfold readAt
    rw [List.drop_zero, List.take_of_length_le (le_of_eq (leBytes_length 8 L)),
        leBytes_readLE]
    exact Nat.mod_eq_of_lt h
  · simp [leBytes_length]

lemma phdr_type_val (L : Nat) : elf64_phdr.type_get (phdr_bytes L) = 1 := by
  simp only [elf64_phdr.type_get]
  rw [phdr_bytes_eq, List.append_assoc, List.append_assoc, readAt_append_left]
  all_goals decide

lemma phdr_flags_val (L : Nat) : elf64_phdr.flags_get (phdr_bytes L) = 7 := by
  simp only [elf64_phdr.flags_get]
  rw [phdr_bytes_eq, List.append_assoc, List.append_assoc, readAt_append_left]
  all_goals decide

lemma phdr_offset_val (L : Nat) : elf64_phdr.offset_get (phdr_bytes L) = 120 := by
  simp only [elf64_phdr.offset_get]
  rw [phdr_bytes_eq, List.append_assoc, List.append_assoc, readAt_append_left]
  all_goals decide

lemma phdr_vaddr_val (L : Nat) :
    elf64_phdr.vaddr_get (phdr_bytes L) = 0x400000 + 120 := by
  simp only [elf64_phdr.vaddr_get]
  rw [phdr_bytes_eq, List.append_assoc, List.append_assoc, readAt_append_left]
  all_goals decide

lemma phdr_paddr_val (L : Nat) : elf64_phdr.paddr_get (phdr_bytes L) = 0 := by
  simp only [elf64_phdr.paddr_get]
  rw [phdr_bytes_eq, List.append_assoc, List.append_assoc, readAt_append_left]
  all_goals decide

lemma filesz_get_phdr_bytes (L : Nat) (h : L < 2 ^ 64) :
    elf64_phdr.filesz_get (phdr_bytes L) = L := by
  simp only [elf64_phdr.filesz_get]
  rw [phdr_bytes_eq, List.append_assoc, List.append_assoc, readAt_append_right]
  · exact readAt_leBytes8 L _ h
  · decide

lemma memsz_get_phdr_bytes (L : Nat) (h : L < 2 ^ 64) :
    elf64_phdr.memsz_get (phdr_bytes L) = L := by
  simp only [elf64_phdr.memsz_get]
  rw [phdr_bytes_eq, List.append_assoc, List.append_assoc, readAt_append_right]
  · show readAt (leBytes 8 L ++ _) 8 8 = L
    rw [readAt_append_right]
    · rw [leBytes_length]
      exact readAt_leBytes8 L _ h
    · simp [leBytes_length]
  · decide

lemma phdr_align_val (L : Nat) : elf64_phdr.align_get (phdr_bytes L) = 4096 := by
  simp only [elf64_phdr.align_get]
  rw [phdr_bytes_eq, List.append_assoc, List.append_assoc, readAt_append_right]
  · show readAt (leBytes 8 L ++ _) 16 8 = 4096
    rw [readAt_append_right]
    · rw [leBytes_length]
      show readAt (leBytes 8 L ++ _) 8 8 = 4096
      rw [readAt_append_right]
      · rw [leBytes_length]
        decide
      · simp [leBytes_length]
    · simp [leBytes_length]
  · decide

/-! ## The claims -/

set_option maxHeartbeats 1600000 in
/-- C1: for every payload of length `L` (below the `usize` bound
`2 ^ 64`), the program header region (bytes 64..120) of the buffer
returned by `create_elf` has segment type 1 (`PT_LOAD`), flags 7
(read, write, execute), file offset 120, virtual address
`0x400000 + 120`, file size `L`, memory size `L`, and alignment 4096;
moreover the file offset equals `header_size + program_header_size`,
the virtual address equals `load_base + file_offset`, and
`file_size = memory_size = L`. -/
theorem c1_phdr_fields (p : List Nat) (h : p.length < 2 ^ 64) :
    elf64_phdr.type_get (elf64_file.phdr (create_elf p)) = 1 ∧
    elf64_phdr.flags_get (elf64_file.phdr (create_elf p)) = 7 ∧
    elf64_phdr.offset_get (elf64_file.phdr (create_elf p)) = 120 ∧
    elf64_phdr.vaddr_get (elf64_file.phdr (create_elf p)) = 0x400000 + 120 ∧
    elf64_phdr.filesz_get (elf64_file.phdr (create_elf p)) = p.length ∧
    elf64_phdr.memsz_get (elf64_file.phdr (create_elf p)) = p.length ∧
    elf64_phdr.align_get (elf64_file.phdr (create_elf p)) = 4096 ∧
    elf64_phdr.offset_get (elf64_file.phdr (create_elf p)) =
      elf64_hdr.SIZE.getD 0 + elf64_phdr.SIZE.getD 0 ∧
    elf64_phdr.vaddr_get (elf64_file.phdr (create_elf p)) =
      VADDR + elf64_phdr.offset_get (elf64_file.phdr (create_elf p)) ∧
    elf64_phdr.filesz_get (elf64_file.phdr (create_elf p)) =
      elf64_phdr.memsz_get (elf64_file.phdr (create_elf p)) := by
  rw [create_elf_phdr_view]
  refine ⟨phdr_type_val _, phdr_flags_val _, phdr_offset_val _, phdr_vaddr_val _,
    filesz_get_phdr_bytes p.length h, memsz_get_phdr_bytes p.length h,
    phdr_align_val _, ?_, ?_, ?_⟩
  · rw [phdr_offset_val]
    decide
  · rw [phdr_vaddr_val, phdr_offset_val]
    decide
  · rw [filesz_get_phdr_bytes p.length h, memsz_get_phdr_bytes p.length h]

/-- C1 witness: the empty payload satisfies the length bound and the
field equations. -/
theorem c1_phdr_fields_witness :
    ([] : List Nat).length < 2 ^ 64 ∧
    (elf64_phdr.type_get (elf64_file.phdr (create_elf [])) = 1 ∧
     elf64_phdr.flags_get (elf64_file.phdr (create_elf [])) = 7 ∧
     elf64_phdr.offset_get (elf64_file.phdr (create_elf [])) = 120 ∧
     elf64_phdr.vaddr_get (elf64_file.phdr (create_elf [])) = 0x400000 + 120 ∧
     elf64_phdr.filesz_get (elf64_file.phdr (create_elf [])) = ([] : List Nat).length ∧
     elf64_phdr.memsz_get (elf64_file.phdr (create_elf [])) = ([] : List Nat).length ∧
     elf64_phdr.align_get (elf64_file.phdr (create_elf [])) = 4096 ∧
     elf64_phdr.offset_get (elf64_file.phdr (create_elf [])) =
       elf64_hdr.SIZE.getD 0 + elf64_phdr.SIZE.getD 0 ∧
     elf64_phdr.vaddr_get (elf64_file.phdr (create_elf [])) =
       VADDR + elf64_phdr.offset_get (elf64_file.phdr (create_elf [])) ∧
     elf64_phdr.filesz_get (elf64_file.phdr (create_elf [])) =
       elf64_phdr.memsz_get (elf64_file.phdr (create_elf []))) :=
  ⟨by decide, c1_phdr_fields [] (by decide)⟩

/-- C2: for every payload, the file header (bytes 0..64) of the buffer
returned by `create_elf` has entry address `load_base + 120`
(independently of the payload, which is universally quantified),
program-header-table offset equal to the 64-byte header size, file type
2, machine 62, version 1, flags 0, ehsize 64, phentsize 56, phnum 1,
and all four section-header-table fields zero. -/
theorem c2_file_header_fields (p : List Nat) :
    elf64_hdr.entry_get (elf64_file.hdr (create_elf p)) = 0x400000 + 120 ∧
    elf64_hdr.phoff_get (elf64_file.hdr (create_elf p)) = elf64_hdr.SIZE.getD 0 ∧
    elf64_hdr.type_get (elf64_file.hdr (create_elf p)) = 2 ∧
    elf64_hdr.machine_get (elf64_file.hdr (create_elf p)) = 62 ∧
    elf64_hdr.version_get (elf64_file.hdr (create_elf p)) = 1 ∧
    elf64_hdr.flags_get (elf64_file.hdr (create_elf p)) = 0 ∧
    elf64_hdr.ehsize_get (elf64_file.hdr (create_elf p)) = 64 ∧
    elf64_hdr.phentsize_get (elf64_file.hdr (create_elf p)) = 56 ∧
    elf64_hdr.phnum_get (elf64_file.hdr (create_elf p)) = 1 ∧
    elf64_hdr.shoff_get (elf64_file.hdr (create_elf p)) = 0 ∧
    elf64_hdr.shentsize_get (elf64_file.hdr (create_elf p)) = 0 ∧
    elf64_hdr.shnum_get (elf64_file.hdr (create_elf p)) = 0 ∧
    elf64_hdr.shstrndx_get (elf64_file.hdr (create_elf p)) = 0 := by
  rw [create_elf_hdr_view, hdr_bytes_eq]
  refine ⟨?_, ?_, ?_, ?_, ?_, ?_, ?_, ?_, ?_, ?_, ?_, ?_, ?_⟩ <;> decide

/-- C3: for every payload of length `L`, the buffer returned by
`create_elf` has length `120 + L`; the file-header view occupies
exactly 64 bytes and the program-header view exactly 56 (the two
layout sizes are the static facts `some 64` and `some 56`), and the
`program` region holds the payload bytes verbatim. -/
theorem c3_buffer_layout (p : List Nat) :
    (create_elf p).length = 120 + p.length ∧
    (elf64_file.hdr (create_elf p)).length = 64 ∧
    (elf64_file.phdr (create_elf p)).length = 56 ∧
    elf64_file.program (create_elf p) = p ∧
    elf64_hdr.SIZE = some 64 ∧
    elf64_phdr.SIZE = some 56 :=
  ⟨create_elf_length p,
   by rw [create_elf_hdr_view]; exact hdr_bytes_length,
   by rw [create_elf_phdr_view]; exact phdr_bytes_length p.length,
   create_elf_program_view p, hdr_SIZE_eq, phdr_SIZE_eq⟩

/-- C4: for every payload, the first 16 bytes of the buffer returned by
`create_elf` are `0x7F`, `"ELF"`, class 2, data encoding 1, version 1,
OS/ABI 0, ABI version 0, and seven zero padding bytes; the
identification layout's size is exactly 16 bytes. -/
theorem c4_ident_block (p : List Nat) :
    (create_elf p).take 16 =
      [0x7f, 0x45, 0x4c, 0x46, 2, 1, 1, 0, 0, 0, 0, 0, 0, 0, 0, 0] ∧
    elf64_ident.SIZE = some 16 := by
  constructor
  · have h16 : (16 : Nat) ≤ hdr_bytes.length := by rw [hdr_bytes_length]; omega
    rw [create_elf_eq, List.append_assoc, List.take_append_of_le_length h16,
        hdr_bytes_eq]
    decide
  · rfl

/-- C5: executing the byte sequence returned by `create_program` from
its first byte, in any initial machine state, performs the trace of
exactly one syscall — number 60 in the syscall-number register `rax`
and first argument 0 in the argument register `rdi` — and ends in the
exited state (the `exit` syscall does not return). -/
theorem c5_payload_exit0 (rax rdi rsp : Nat) (mem : Nat → Nat) :
    run create_program 4 ⟨0, rax, rdi, rsp, mem⟩ = ([(60, 0)], Outcome.exited 0) := by
  simp [run, decodeStep, create_program]

/-- C6 counterexample: already for the empty payload, the physical
address field of the program header is not equal to the virtual address
field, so paddr does not mirror vaddr. -/
theorem c6_paddr_counterexample :
    ¬ (elf64_phdr.paddr_get (elf64_file.phdr (create_elf [])) =
       elf64_phdr.vaddr_get (elf64_file.phdr (create_elf []))) := by decide

/-- C6 amended: `set_elf64_phdr` never writes the paddr field, so for
every payload the physical address field of the program header of the
buffer returned by `create_elf` is 0 (its zero-initialized value),
while the virtual address field is `load_base + 120`. -/
theorem c6_paddr_amended (p : List Nat) :
    elf64_phdr.paddr_get (elf64_file.phdr (create_elf p)) = 0 ∧
    elf64_phdr.vaddr_get (elf64_file.phdr (create_elf p)) = 0x400000 + 120 := by
  rw [create_elf_phdr_view]
  exact ⟨phdr_paddr_val p.length, phdr_vaddr_val p.length⟩

/-- C7: round-trip — decoding the first 120 bytes of the buffer
returned by `create_elf` with the `elf64_file` layout (its `hdr` and
`phdr` views) and the field accessors of `elf64_ident`, `elf64_hdr`
and `elf64_phdr` reproduces exactly the values written during
construction (payload length below the `usize` bound). -/
theorem c7_roundtrip (p : List Nat) (h : p.length < 2 ^ 64) :
    elf64_ident.mag_get (elf64_hdr.ident_get (elf64_file.hdr ((create_elf p).take 120))) =
      [0x7f, 0x45, 0x4c, 0x46] ∧
    elf64_ident.class_get (elf64_hdr.ident_get (elf64_file.hdr ((create_elf p).take 120))) = 2 ∧
    elf64_ident.data_get (elf64_hdr.ident_get (elf64_file.hdr ((create_elf p).take 120))) = 1 ∧
    elf64_ident.version_get (elf64_hdr.ident_get (elf64_file.hdr ((create_elf p).take 120))) = 1 ∧
    elf64_ident.os_abi_get (elf64_hdr.ident_get (elf64_file.hdr ((create_elf p).take 120))) = 0 ∧
    elf64_ident.abi_version_get (elf64_hdr.ident_get (elf64_file.hdr ((create_elf p).take 120))) = 0 ∧
    elf64_ident.pad_get (elf64_hdr.ident_get (elf64_file.hdr ((create_elf p).take 120))) =
      List.replicate 7 0 ∧
    elf64_hdr.type_get (elf64_file.hdr ((create_elf p).take 120)) = 2 ∧
    elf64_hdr.machine_get (elf64_file.hdr ((create_elf p).take 120)) = 62 ∧
    elf64_hdr.version_get (elf64_file.hdr ((create_elf p).take 120)) = 1 ∧
    elf64_hdr.entry_get (elf64_file.hdr ((create_elf p).take 120)) = VADDR + PROGRAM_OFFSET ∧
    elf64_hdr.phoff_get (elf64_file.hdr ((create_elf p).take 120)) = elf64_hdr.SIZE.getD 0 ∧
    elf64_hdr.flags_get (elf64_file.hdr ((create_elf p).take 120)) = 0 ∧
    elf64_hdr.ehsize_get (elf64_file.hdr ((create_elf p).take 120)) = elf64_hdr.SIZE.getD 0 ∧
    elf64_hdr.phentsize_get (elf64_file.hdr ((create_elf p).take 120)) = elf64_phdr.SIZE.getD 0 ∧
    elf64_hdr.phnum_get (elf64_file.hdr ((create_elf p).take 120)) = 1 ∧
    elf64_phdr.type_get (elf64_file.phdr ((create_elf p).take 120)) = 1 ∧
    elf64_phdr.flags_get (elf64_file.phdr ((create_elf p).take 120)) = (0x1 ||| 0x2 ||| 0x4) ∧
    elf64_phdr.offset_get (elf64_file.phdr ((create_elf p).take 120)) =
      elf64_hdr.SIZE.getD 0 + elf64_phdr.SIZE.getD 0 ∧
    elf64_phdr.vaddr_get (elf64_file.phdr ((create_elf p).take 120)) = VADDR + PROGRAM_OFFSET ∧
    elf64_phdr.filesz_get (elf64_file.phdr ((create_elf p).take 120)) = p.length ∧
    elf64_phdr.memsz_get (elf64_file.phdr ((create_elf p).take 120)) = p.length ∧
    elf64_phdr.align_get (elf64_file.phdr ((create_elf p).take 120)) = 4096 := by
  have hhdr : elf64_file.hdr ((create_elf p).take 120) = hdr_bytes := by
    rw [create_elf_take120, elf64_file.hdr, List.take_left' hdr_bytes_length]
  have hphdr : elf64_file.phdr ((create_elf p).take 120) = phdr_bytes p.length := by
    rw [create_elf_take120, elf64_file.phdr, List.drop_left' hdr_bytes_length,
        List.take_of_length_le (le_of_eq (phdr_bytes_length p.length))]
  rw [hhdr, hphdr]
  refine ⟨?_, ?_, ?_, ?_, ?_, ?_, ?_, ?_, ?_, ?_, ?_, ?_, ?_, ?_, ?_, ?_,
    phdr_type_val _, ?_, ?_, ?_,
    filesz_get_phdr_bytes p.length h, memsz_get_phdr_bytes p.length h,
    phdr_align_val _⟩ <;>
    first
      | (rw [hdr_bytes_eq]; decide)
      | (rw [phdr_flags_val]; decide)
      | (rw [phdr_offset_val]; decide)
      | (rw [phdr_vaddr_val]; decide)

/-- C7 witness: the empty payload satisfies the length bound and the
round-trip equations. -/
theorem c7_roundtrip_witness :
    ([] : List Nat).length < 2 ^ 64 ∧
    elf64_phdr.filesz_get (elf64_file.phdr ((create_elf []).take 120)) = ([] : List Nat).length ∧
    elf64_phdr.memsz_get (elf64_file.phdr ((create_elf []).take 120)) = ([] : List Nat).length ∧
    elf64_hdr.entry_get (elf64_file.hdr ((create_elf []).take 120)) = VADDR + PROGRAM_OFFSET :=
  ⟨by decide, (c7_roundtrip [] (by decide)).2.2.2.2.2.2.2.2.2.2.2.2.2.2.2.2.2.2.2.2.1,
   (c7_roundtrip [] (by decide)).2.2.2.2.2.2.2.2.2.2.2.2.2.2.2.2.2.2.2.2.2.1,
   (c7_roundtrip [] (by decide)).2.2.2.2.2.2.2.2.2.2.1⟩

/-- C8: determinism — `create_elf` applied to equal payloads yields
byte-for-byte identical buffers, and `create_program`, which takes no
input, always yields the same payload; neither embeds any state beyond
its arguments. -/
theorem c8_deterministic (p₁ p₂ : List Nat) (h : p₁ = p₂) :
    create_elf p₁ = create_elf p₂ ∧ create_program = create_program :=
  ⟨by rw [h], rfl⟩

/-- C8 witness: two invocations on the payload `[0xaa]`. -/
theorem c8_deterministic_witness :
    ([0xaa] : List Nat) = [0xaa] ∧
    (create_elf [0xaa] = create_elf [0xaa] ∧ create_program = create_program) :=
  ⟨rfl, c8_deterministic [0xaa] [0xaa] rfl⟩

/-- C9: totality — `create_elf` with every panic branch made explicit
(the layout-size unwraps, the in-bounds checks of the header field
writes, and the equal-length check of the final `copy_from_slice`)
succeeds on every payload, returning exactly the buffer `create_elf`
returns. -/
theorem c9_total (p : List Nat) :
    create_elf_checked p = some (create_elf p) := by
  have h1 : (List.replicate (64 + 56 + p.length) (0 : Nat)).take 64 =
      List.replicate 64 (0 : Nat) := by
    rw [List.take_replicate]
    congr 1
    omega
  have h2 : ((List.replicate (64 + 56 + p.length) (0 : Nat)).drop 64).take 56 =
      List.replicate 56 (0 : Nat) := by
    rw [List.drop_replicate, List.take_replicate]
    congr 1
    omega
  have h3 : (List.replicate (64 + 56 + p.length) (0 : Nat)).drop (64 + 56) =
      List.replicate p.length (0 : Nat) := by
    rw [List.drop_replicate]
    congr 1
    omega
  have hhdr : set_elf64_hdr_checked (List.replicate 64 (0 : Nat)) =
      some (set_elf64_hdr (List.replicate 64 0)) := by decide
  have hphdr : set_elf64_phdr_checked (List.replicate 56 (0 : Nat)) p.length =
      some (set_elf64_phdr (List.replicate 56 0) p.length) := rfl
  simp only [create_elf_checked, hdr_SIZE_eq, phdr_SIZE_eq, Option.bind_eq_bind,
    Option.some_bind]
  rw [h1, h2, h3, hhdr, hphdr]
  simp only [Option.some_bind, List.length_replicate, if_pos rfl]
  rw [create_elf_eq]
  rfl

set_option maxRecDepth 8000 in
/-- C10: `write_elf` opens the output path with create-but-no-truncate
options (mode `0o755` applies when the file is created) and writes the
`120 + payload-length` assembled bytes at offset 0; an existing file's
content beyond that length is left unchanged, so for a pre-existing
longer file the result differs from the assembled buffer. -/
theorem c10_write_elf_frame (f : FileState) :
    (write_elf (some f)).content.take (120 + create_program.length) =
      create_elf create_program ∧
    (write_elf (some f)).content.drop (120 + create_program.length) =
      f.content.drop (120 + create_program.length) ∧
    (write_elf none).mode = 0o755 ∧
    (write_elf none).content = create_elf create_program ∧
    (write_elf (some ⟨List.replicate 128 1, 0o644⟩)).content ≠
      create_elf create_program := by
  have hlen : (create_elf create_program).length = 120 + create_program.length :=
    create_elf_length create_program
  refine ⟨?_, ?_, rfl, ?_, by decide⟩
  · show ((create_elf create_program) ++
      f.content.drop (create_elf create_program).length).take (120 + create_program.length) = _
    rw [List.take_left' hlen]
  · show ((create_elf create_program) ++
      f.content.drop (create_elf create_program).length).drop (120 + create_program.length) = _
    rw [List.drop_left' hlen, hlen]
  · show (create_elf create_program) ++ ([] : List Nat).drop _ = _
    rw [List.drop_nil, List.append_nil]

end MinimalElf
